import Mathlib

/-!
Verification of the axe-EF CRUD backend.

This file gives a shallow embedding, in Lean 4, of the parts of the
repository relevant to its specification: the existence-verification
helper (`crud_verify_existence.py`), the generic CRUD/upsert helper
(`crud_sync_service.py`), the axe-EF service (`features/axe_ef/service.py`)
and its router (`features/axe_ef/router.py`).

Modelling conventions:
  * Python exceptions are modelled by `Except PyError`; `HTTPException`
    becomes `PyError.httpError status detail`, `TypeError` and
    `AttributeError` get their own constructors, and an uncaught
    `sqlalchemy.exc.IntegrityError` becomes `PyError.integrity`.
  * Database tables are lists of rows; sessions are threaded explicitly as
    a `DB` value, so an operation that raises returns no new state.
  * The ORM models (`AxeEf`, `SectionAxe`, `ServiceAnnuel`,
    `AxeEfSection`, `LvpkSectionAxe`) live in the external package
    `opticapa_models`; only the columns this repository reads are
    modelled, and their table names are fixed as the string constants
    used in the error messages.
  * `datetime.now()` is passed in as an explicit `now : Nat` timestamp and
    `uuid4()` as an explicit fresh id, since both are environment inputs.
-/

/-- Errors a request handler can terminate with: FastAPI `HTTPException`s
carrying a status code and a detail string, Python `TypeError` /
`AttributeError`, and an uncaught database `IntegrityError`. -/
inductive PyError where
  | httpError (statusCode : Nat) (detail : String)
  | typeError (msg : String)
  | attributeError (msg : String)
  | integrity (msg : String)
deriving DecidableEq, Repr

/-- The HTTP status a client observes: `HTTPException`s carry their own
status; an uncaught `TypeError`, `AttributeError` or `IntegrityError`
surfaces as a 500 from the framework. -/
def PyError.status : PyError → Nat
  | .httpError s _ => s
  | .typeError _ => 500
  | .attributeError _ => 500
  | .integrity _ => 500

/-- The `object_id` argument of `verify_existence_and_get`: either a single
scalar id (`int`/`str`/`UUID`) or a list of ids.  `_verify_existence_and_get_stmt`
branches on exactly this shape (`isinstance(object_id, (int, str, UUID))`). -/
inductive ObjectId (κ : Type) where
  | single (k : κ)
  | multiple (ks : List κ)
deriving DecidableEq, Repr

/-- The value `verify_existence_and_get` returns to its caller: a single
row (scalar lookup), a list of rows (list lookup), or Python `None`
(either `return_model=False`, or a scalar lookup that found nothing under
`ignore_not_found=True`). -/
inductive VerifyResult (ρ : Type) where
  | oneR (r : ρ)
  | manyR (rs : List ρ)
  | noneR
deriving DecidableEq, Repr

/-- The list a caller gets when the lookup was a list lookup with
`return_model=True` (Python just returns the list object). -/
def VerifyResult.asList {ρ : Type} : VerifyResult ρ → List ρ
  | .oneR r => [r]
  | .manyR rs => rs
  | .noneR => []

/-- Python f-string rendering of a scalar-or-list of string ids:
`f"{object_id}"` prints a `str` bare and a list with quoted elements. -/
def pyReprStrId : ObjectId String → String
  | .single s => s
  | .multiple ss =>
      "[" ++ String.intercalate ", " (ss.map (fun s => "\x27" ++ s ++ "\x27")) ++ "]"

/-- Python f-string rendering of a scalar-or-list of integer ids. -/
def pyReprNatId : ObjectId Nat → String
  | .single n => toString n
  | .multiple ns => "[" ++ String.intercalate ", " (ns.map toString) ++ "]"

/-- The query issued by `_verify_existence_and_get_stmt`, evaluated against
the table contents: a scalar id selects `.first()` matching row, a list id
selects `.all()` rows whose key is in the list.  `some` = scalar branch
result, `none`-vs-`list` distinction mirrors the `multiple_result` flag. -/
def stmtScalarResult {κ ρ : Type} [BEq κ] (rows : List ρ) (key : ρ → κ) (k : κ) :
    Option ρ :=
  rows.find? (fun r => key r == k)

/-- List-lookup branch of `_verify_existence_and_get_stmt`: the rows whose
key column is `IN` the given id list. -/
def stmtListResult {κ ρ : Type} [BEq κ] (rows : List ρ) (key : ρ → κ) (ks : List κ) :
    List ρ :=
  rows.filter (fun r => ks.contains (key r))

/-- Embedding of the synchronous `verify_existence_and_get` of
`crud_verify_existence.py`.  `tableName` is `model.__tablename__`,
`reprOf` renders `f"{object_id}"`, `rows` are the table contents, `key` is
`model_column_id` (defaulting to the model id column at every call site in
this repository), and `return_model` mirrors the keyword of the same name.
`load_options` and `returned_column` only shape the SELECT sent to the
database and are not modelled beyond `key`.  The source checks
`if not result:` after running the query and raises a 404 whose message
ends in "does not exists"; otherwise it returns the result, or `None`
when `return_model` is false.  The function has no ignore-not-found
parameter. -/
def verify_existence_and_get {κ ρ : Type} [BEq κ] (tableName : String)
    (reprOf : ObjectId κ → String) (object_id : ObjectId κ) (rows : List ρ)
    (key : ρ → κ) (return_model : Bool) : Except PyError (VerifyResult ρ) :=
  match object_id with
  | .single k =>
      match stmtScalarResult rows key k with
      | Option.none =>
          .error (.httpError 404
            (tableName ++ " with id " ++ reprOf object_id ++ " does not exists"))
      | Option.some r => .ok (if return_model then .oneR r else .noneR)
  | .multiple ks =>
      let res := stmtListResult rows key ks
      if res.isEmpty then
        .error (.httpError 404
          (tableName ++ " with id " ++ reprOf object_id ++ " does not exists"))
      else .ok (if return_model then .manyR res else .noneR)

/-- Embedding of `async_verify_existence_and_get`: same statement builder
and same branching, but the 404 message ends in "does not exist" (no
trailing "s") and the raise is skipped when `ignore_not_found` is true, in
which case the empty result (`None` or `[]`) is returned as-is. -/
def async_verify_existence_and_get {κ ρ : Type} [BEq κ] (tableName : String)
    (reprOf : ObjectId κ → String) (object_id : ObjectId κ) (rows : List ρ)
    (key : ρ → κ) (return_model : Bool) (ignore_not_found : Bool) :
    Except PyError (VerifyResult ρ) :=
  match object_id with
  | .single k =>
      match stmtScalarResult rows key k with
      | Option.none =>
          if ignore_not_found then .ok .noneR
          else
            .error (.httpError 404
              (tableName ++ " with id " ++ reprOf object_id ++ " does not exist"))
      | Option.some r => .ok (if return_model then .oneR r else .noneR)
  | .multiple ks =>
      let res := stmtListResult rows key ks
      if res.isEmpty && !ignore_not_found then
        .error (.httpError 404
          (tableName ++ " with id " ++ reprOf object_id ++ " does not exist"))
      else .ok (if return_model then .manyR res else .noneR)

/-- A row of the external `section_axe` table (`SectionAxe` model): the
columns this repository reads are the TCAP key `onb_tcap`, the label, and
the owning service period. -/
structure SectionRow where
  onb_tcap : Nat
  libelle : String
  service_annuel_id : String
deriving DecidableEq, Repr

/-- A row of the `axe_ef` table (`AxeEf` model): generated id, label,
display fields, owning service period, and creation/modification
metadata.  Timestamps are `Nat` instants. -/
structure AxeRow where
  id : String
  libelle : String
  description : Option String
  nature : String
  color : String
  service_annuel_id : String
  created_at : Option Nat
  created_by : Option Nat
  modified_at : Option Nat
  modified_by : Option Nat
deriving DecidableEq, Repr

/-- A row of the `lvpk_section_axe` table (`LvpkSectionAxe` model): the
line/track/kilometre-point fields aggregated by the get-all query, keyed
by the section it belongs to. -/
structure LvpkRow where
  ligne : String
  voie : String
  pk_debut : Int
  pk_fin : Int
  section_axe_onb : Nat
deriving DecidableEq, Repr

/-- The database state this service reads and writes: the service-period
ids, the section table, the axis table, the axis-section association table
(`axe_ef_section`, rows `(axe_ef_id, section_axe_onb)`), and the
lvpk table. -/
structure DB where
  service_annuels : List String
  sections : List SectionRow
  axes : List AxeRow
  axe_sections : List (String × Nat)
  lvpks : List LvpkRow
deriving DecidableEq, Repr

/-- The request body `AxeEfCreateUpdate` (schemas.py): label, color,
nature, description, service period and the list of section `onb_tcap`
keys. -/
structure AxeEfCreateUpdate where
  libelle : String
  color : String
  nature : String
  description : Option String
  service_annuel_id : String
  section_axe_onbs : List Nat
deriving DecidableEq, Repr

/-- The dict `AxeEfService._make_axe_ef` returns: the request fields with
`section_axe_onbs` replaced by the resolved `sections` rows, plus the
creation or modification metadata stamped from `user_id` and
`datetime.now()`. -/
structure AxeEfDict where
  libelle : String
  color : String
  nature : String
  description : Option String
  service_annuel_id : String
  sections : List SectionRow
  created_at : Option Nat
  created_by : Option Nat
  modified_at : Option Nat
  modified_by : Option Nat
deriving DecidableEq, Repr

/-- Embedding of `AxeEfService._validate_sections`: an empty resolved
section list is a 400 saying no sections were specified; otherwise every
resolved section whose `service_annuel_id` differs from the requested one
is collected and, if any, a 400 lists their labels. -/
def AxeEfService._validate_sections (sections_axes : List SectionRow)
    (service_annuel_id : String) : Except PyError Unit :=
  if sections_axes.isEmpty then
    .error (.httpError 400
      ("No TCAP sections axes were specified.\n" ++
       "Please select at least one valid section on the specified SA " ++
       service_annuel_id))
  else
    let unvalid_sections :=
      (sections_axes.filter
        (fun s => s.service_annuel_id != service_annuel_id)).map SectionRow.libelle
    if unvalid_sections.isEmpty then .ok ()
    else
      .error (.httpError 400
        ("TCAP sections axes " ++ String.intercalate ", " unvalid_sections ++
         " aren\x27t valid on the specified SA " ++ service_annuel_id ++
         ".\nPlease select valid sections on this SA"))

/-- Embedding of `AxeEfService._make_axe_ef`: verify the service period
exists (`return_model=False`), resolve `section_axe_onbs` against the
`section_axe` table on column `onb_tcap` (`return_model=True`), validate
the resolved sections, and assemble the dict, stamping `created_at/by` when
`is_new` and `modified_at/by` otherwise. -/
def AxeEfService._make_axe_ef (axe_ef : AxeEfCreateUpdate) (user_id : Nat)
    (is_new : Bool) (now : Nat) (db : DB) : Except PyError AxeEfDict := do
  let _ ← verify_existence_and_get "service_annuel" pyReprStrId
    (.single axe_ef.service_annuel_id) db.service_annuels (fun s => s) false
  let r ← verify_existence_and_get "section_axe" pyReprNatId
    (.multiple axe_ef.section_axe_onbs) db.sections SectionRow.onb_tcap true
  let sections_axes := r.asList
  let _ ← AxeEfService._validate_sections sections_axes axe_ef.service_annuel_id
  .ok { libelle := axe_ef.libelle
        color := axe_ef.color
        nature := axe_ef.nature
        description := axe_ef.description
        service_annuel_id := axe_ef.service_annuel_id
        sections := sections_axes
        created_at := if is_new then some now else none
        created_by := if is_new then some user_id else none
        modified_at := if is_new then none else some now
        modified_by := if is_new then none else some user_id }

/-- The `AxeEf(id=..., **dict)` constructor call: an axis row built from
the dict returned by `_make_axe_ef`. -/
def axeRowOfDict (id : String) (d : AxeEfDict) : AxeRow :=
  { id := id
    libelle := d.libelle
    description := d.description
    nature := d.nature
    color := d.color
    service_annuel_id := d.service_annuel_id
    created_at := d.created_at
    created_by := d.created_by
    modified_at := d.modified_at
    modified_by := d.modified_by }

/-- Embedding of `OrmCrudSyncService.create_procedure` for an `AxeEf`
object: `session.add` of the new axis with its `sections` relationship,
then flush and commit — the axis row is appended and one association row
per attached section is written.  (Integrity-error translation at commit
time is modelled separately by `OrmCrudSyncService.commit_translate`.) -/
def OrmCrudSyncService.create_procedure (db_object : AxeRow)
    (db_object_sections : List SectionRow) (db : DB) : DB :=
  { db with
    axes := db.axes ++ [db_object]
    axe_sections :=
      db.axe_sections ++
        db_object_sections.map (fun s => (db_object.id, s.onb_tcap)) }

/-- Embedding of the `AxeEf` branch of `OrmCrudSyncService.update_procedure`:
`obj_to_update.sections.clear()` drops every association row of the loaded
axis, `session.flush()` persists the clear, and `session.merge(db_object)`
upserts the axis row and writes one association row per section attached
to `db_object`, before the final flush/commit. -/
def OrmCrudSyncService.update_procedure (obj_to_update_id : String)
    (db_object : AxeRow) (db_object_sections : List SectionRow) (db : DB) : DB :=
  let cleared := db.axe_sections.filter (fun p => p.1 != obj_to_update_id)
  { db with
    axes := db.axes.map (fun a => if a.id == db_object.id then db_object else a)
    axe_sections :=
      cleared ++ db_object_sections.map (fun s => (db_object.id, s.onb_tcap)) }

/-- Embedding of `AxeEfService.create_axe_ef`: build the dict (which
verifies and validates), wrap it in a fresh `AxeEf`, persist via
`create_procedure`, and report the created id.  The fresh `uuid4()` is the
explicit `new_id` argument. -/
def AxeEfService.create_axe_ef (request : AxeEfCreateUpdate) (user_id : Nat)
    (new_id : String) (now : Nat) (db : DB) : Except PyError (String × DB) := do
  let d ← AxeEfService._make_axe_ef request user_id true now db
  let axe := axeRowOfDict new_id d
  .ok (new_id, OrmCrudSyncService.create_procedure axe d.sections db)

/-- Embedding of `AxeEfService.update_axe_ef`: verify the axis exists,
build the dict, wrap it in an `AxeEf` carrying the same id, and persist via
`update_procedure`. -/
def AxeEfService.update_axe_ef (axe_ef_id : String) (request : AxeEfCreateUpdate)
    (user_id : Nat) (now : Nat) (db : DB) : Except PyError (String × DB) := do
  let _ ← verify_existence_and_get "axe_ef" pyReprStrId (.single axe_ef_id)
    db.axes AxeRow.id true
  let d ← AxeEfService._make_axe_ef request user_id false now db
  let axe := axeRowOfDict axe_ef_id d
  .ok (axe_ef_id, OrmCrudSyncService.update_procedure axe_ef_id axe d.sections db)

/-- A parameter of a Python function signature: its name and whether it
has a default value. -/
structure PyParam where
  name : String
  has_default : Bool
deriving DecidableEq, Repr

/-- Python call binding: the required parameters (no default) that the
caller's keyword arguments do not supply.  A non-empty result means the
call raises `TypeError` before the callee body runs. -/
def missing_required_args (params : List PyParam) (supplied : List String) :
    List String :=
  (params.filter (fun p => !p.has_default && !supplied.contains p.name)).map
    PyParam.name

/-- Python call semantics: if any required parameter is unsupplied, the
call raises `TypeError` naming the missing arguments and the callee body
never runs; otherwise the body's result is the call's result. -/
def call_with_kwargs {α : Type} (fname : String) (params : List PyParam)
    (supplied : List String) (body : Except PyError α) : Except PyError α :=
  match missing_required_args params supplied with
  | [] => body
  | missing =>
      .error (.typeError
        (fname ++ "() missing " ++ toString missing.length ++
         " required positional argument: " ++
         String.intercalate ", " (missing.map (fun n => "\x27" ++ n ++ "\x27"))))

/-- The signature of `AxeEfService.create_axe_ef` (beyond the bound `cls`):
`request`, `user_id`, `session`, all without defaults. -/
def AxeEfService.create_axe_ef_params : List PyParam :=
  [⟨"request", false⟩, ⟨"user_id", false⟩, ⟨"session", false⟩]

/-- The signature of `AxeEfService.update_axe_ef` (beyond the bound `cls`):
`axe_ef_id`, `request`, `user_id`, `session`, all without defaults. -/
def AxeEfService.update_axe_ef_params : List PyParam :=
  [⟨"axe_ef_id", false⟩, ⟨"request", false⟩, ⟨"user_id", false⟩, ⟨"session", false⟩]

/-- Embedding of the `POST /api/axe_ef` route handler (router.py): it
invokes `AxeEfService.create_axe_ef(request=request, session=session)` —
no `user_id` keyword is passed, and none is even in scope in the handler.
The service body below is therefore supplied a placeholder user id 0 that
is unreachable: `call_with_kwargs` returns the binding `TypeError` without
using its `body` argument whenever a required argument is missing. -/
def axe_ef_router.create_axe_ef (request : AxeEfCreateUpdate) (new_id : String)
    (now : Nat) (db : DB) : Except PyError (String × DB) :=
  call_with_kwargs "create_axe_ef" AxeEfService.create_axe_ef_params
    ["request", "session"]
    (AxeEfService.create_axe_ef request 0 new_id now db)

/-- Embedding of the `PUT /api/axe_ef/{axe_ef_id}` route handler: it
invokes `AxeEfService.update_axe_ef(axe_ef_id=..., request=...,
session=...)` — again without `user_id`; the placeholder 0 in the body is
unreachable for the same reason as in `axe_ef_router.create_axe_ef`. -/
def axe_ef_router.update_axe_ef (axe_ef_id : String) (request : AxeEfCreateUpdate)
    (now : Nat) (db : DB) : Except PyError (String × DB) :=
  call_with_kwargs "update_axe_ef" AxeEfService.update_axe_ef_params
    ["axe_ef_id", "request", "session"]
    (AxeEfService.update_axe_ef axe_ef_id request 0 now db)

/-- The attribute names `class AxeEfService` defines in
`features/axe_ef/service.py` (its seven methods, in source order). -/
def AxeEfService.method_names : List String :=
  ["get_axe_ef", "get_all_axes_ef", "_validate_sections", "_make_axe_ef",
   "create_axe_ef", "update_axe_ef", "delete_axe_ef"]

/-- Embedding of the `POST /api/axe_ef/renew/{axe_ef_id}` route handler:
it evaluates the attribute `AxeEfService.renew_axe_ef`.  Attribute lookup
on the class consults `AxeEfService.method_names`; when the name is absent
Python raises `AttributeError` before any call is made, so the `then`
branch (what a found method would do) is unreachable and holds only a
placeholder. -/
def axe_ef_router.renew_axe_ef (axe_ef_id : String) (service_annuel_id : String)
    (db : DB) : Except PyError (String × DB) :=
  if AxeEfService.method_names.contains "renew_axe_ef" then
    .ok (axe_ef_id ++ service_annuel_id, db)
  else
    .error (.attributeError
      ("type object \x27AxeEfService\x27 has no attribute \x27renew_axe_ef\x27"))

/-- One element of the `json_agg(json_build_object(...))` aggregate of the
get-all query: the four lvpk fields it projects. -/
structure LvpkObj where
  ligne : String
  voie : String
  pk_debut : Int
  pk_fin : Int
deriving DecidableEq, Repr

/-- One row of the get-all result (`AxeEfGetAll`): the axis columns, the
`updated_at` CASE expression, and the aggregated lvpk array. -/
structure AxeEfGetAllItem where
  id : String
  libelle : String
  color : String
  nature : String
  description : Option String
  updated_at : Option Nat
  lvpks : List LvpkObj
deriving DecidableEq, Repr

/-- The inner-join rows of the get-all query contributed by one axis: for
each `axe_ef_section` association row of the axis, each `lvpk_section_axe`
row of that section, projected to the `json_build_object` fields. -/
def axe_join_rows (db : DB) (a : AxeRow) : List LvpkObj :=
  (db.axe_sections.filter (fun p => p.1 == a.id)).flatMap (fun p =>
    (db.lvpks.filter (fun l => l.section_axe_onb == p.2)).map
      (fun l => ⟨l.ligne, l.voie, l.pk_debut, l.pk_fin⟩))

/-- The aggregated get-all row of one axis: its selected columns,
`updated_at` = `CASE WHEN modified_at IS NOT NULL THEN modified_at ELSE
created_at END`, and `json_agg` of its join rows. -/
def axeGetAllItem (db : DB) (a : AxeRow) : AxeEfGetAllItem :=
  { id := a.id
    libelle := a.libelle
    color := a.color
    nature := a.nature
    description := a.description
    updated_at := match a.modified_at with
      | some m => some m
      | none => a.created_at
    lvpks := axe_join_rows db a }

/-- Embedding of `AxeEfService.get_all_axes_ef`: the list query
inner-joins `axe_ef` to `axe_ef_section` and `lvpk_section_axe` (so an
axis with no joined row is absent), groups by the axis row (its primary
key makes the group one-per-axis) and orders by `libelle`; the count query
is the separate, unfiltered `select(func.count(AxeEf.id))`, i.e. the
number of axis rows. -/
def AxeEfService.get_all_axes_ef (db : DB) : List AxeEfGetAllItem × Nat :=
  let qualifying := db.axes.filter (fun a => !(axe_join_rows db a).isEmpty)
  let sorted := qualifying.insertionSort (fun x y => x.libelle ≤ y.libelle)
  (sorted.map (axeGetAllItem db), db.axes.length)

/-- Classification of a caught `IntegrityError` by its `psycopg2` origin:
`errors.UniqueViolation`, `errors.NotNullViolation`, or anything else. -/
inductive PgErrorKind where
  | uniqueViolation
  | notNullViolation
  | otherViolation
deriving DecidableEq, Repr

/-- A caught `sqlalchemy.exc.IntegrityError`: the kind of its `.orig`
cause, its statement parameters `e.params`, and its rendering `str(e)`. -/
structure IntegrityError where
  kind : PgErrorKind
  params : List (String × String)
  msg : String
deriving DecidableEq, Repr

/-- Embedding of the `except IntegrityError` branch of
`OrmCrudSyncService.execute_stmt`: a unique violation becomes a 409 whose
detail interpolates `e.params.get("libelle", "")` between two fixed
literals (adjacent f-strings, no space after the period); a not-null
violation becomes a 400 whose detail is `str(e)`; anything else becomes a
500 prefixing `str(e)` with "Database integrity error: ". -/
def OrmCrudSyncService.execute_stmt_translate (main_tablename : String)
    (e : IntegrityError) : PyError :=
  match e.kind with
  | .uniqueViolation =>
      .httpError 409
        ("Object " ++ main_tablename ++ " with label " ++
         ((e.params.lookup "libelle").getD "") ++ " already exists." ++
         "Please try again with another label.")
  | .notNullViolation => .httpError 400 e.msg
  | .otherViolation => .httpError 500 ("Database integrity error: " ++ e.msg)

/-- Embedding of the `except IntegrityError` branch of
`OrmCrudSyncService._commit_and_log_session` (flush/commit time): same
three-way mapping, with `db_object.__tablename__` in place of the main
model and the duplicated label again read from `e.params`. -/
def OrmCrudSyncService.commit_translate (tablename : String)
    (e : IntegrityError) : PyError :=
  match e.kind with
  | .uniqueViolation =>
      .httpError 409
        ("Object " ++ tablename ++ " with label " ++
         ((e.params.lookup "libelle").getD "") ++ " already exists." ++
         "Please try again with another label.")
  | .notNullViolation => .httpError 400 e.msg
  | .otherViolation => .httpError 500 ("Database integrity error: " ++ e.msg)

/-- A value of the `object_to_insert` dict: a scalar column value or a
dependent-row collection (a list of column-name/value rows). -/
inductive Val where
  | scalar (s : String)
  | rows (rs : List (List (String × String)))
deriving DecidableEq, Repr

/-- Python truthiness of a dict value, as used by `if objs:` on a popped
sub-collection. -/
def Val.isTruthy : Val → Bool
  | .scalar s => !s.isEmpty
  | .rows rs => !rs.isEmpty

/-- A Python dict, as an association list of column name to value. -/
abbrev PyDict := List (String × Val)

/-- The `object_to_insert` argument of the batch upsert: the source
accepts either one dict or a list of dicts
(`multiple_insert_procedure` branches on `isinstance(object_to_insert, list)`). -/
inductive MainInput where
  | one (obj : PyDict)
  | many (objs : List PyDict)
deriving DecidableEq, Repr

/-- Observable steps of one `upsert_procedure` run, in execution order:
deletion of a dependent collection, the caller's post-delete hook, the
primary insert statement, a dependent-collection insert statement (or its
empty-collection skip), the caller's post-insert hook, and the final
`session.commit()`. -/
inductive UpsertEv where
  | delete_sub (key : String)
  | after_delete_hook
  | exec_main
  | exec_sub (key : String)
  | skip_sub (key : String)
  | after_insert_hook
  | commit
deriving DecidableEq, Repr

/-- The database environment of an upsert run: whether each executed
statement or hook raises.  `main_fail i` is the `IntegrityError` (if any)
of the `i`-th primary insert, `sub_fail i key` that of the dependent
insert for `key`; `delete_fail key` covers the whole `delete_object` call
(its existence check can 404); the two hook fields are errors the hooks
themselves raise. -/
structure UpsertEnv where
  main_fail : Nat → Option IntegrityError
  sub_fail : Nat → String → Option IntegrityError
  delete_fail : String → Option PyError
  after_delete_fail : Option PyError
  after_insert_fail : Option PyError

/-- The dependent-insert loop at the end of
`OrmCrudSyncService.insert_procedure`: for each popped collection in
order, a truthy collection is inserted by one batched statement (a raw
`session.execute`, so an `IntegrityError` there propagates untranslated)
and an empty one is skipped with a debug log. -/
def insert_sub_objects (env : UpsertEnv) (idx : Nat) :
    List (String × Val) → List UpsertEv × Option PyError
  | [] => ([], none)
  | (k, v) :: rest =>
      if v.isTruthy then
        match env.sub_fail idx k with
        | some e => ([], some (.integrity e.msg))
        | none =>
            let r := insert_sub_objects env idx rest
            (.exec_sub k :: r.1, r.2)
      else
        let r := insert_sub_objects env idx rest
        (.skip_sub k :: r.1, r.2)

/-- Embedding of `OrmCrudSyncService.insert_procedure` as the trace of its
statements: pop every `sub_object_models` key present in the dict, build
the primary insert (with `on_conflict_do_update` excluding `id_column`,
`created_at`, `created_by` when `do_update`), execute it through
`execute_stmt` (integrity errors translated), then insert the popped
collections in order.  The statement values themselves are not tracked by
the trace; only which statements run, and with what outcome. -/
def OrmCrudSyncService.insert_procedure (env : UpsertEnv) (idx : Nat)
    (main_tablename : String) (object_to_insert : PyDict)
    (sub_object_models : List (String × String)) :
    List UpsertEv × Option PyError :=
  let sub_objects :=
    sub_object_models.filterMap
      (fun km => (object_to_insert.lookup km.1).map (fun v => (km.1, v)))
  match env.main_fail idx with
  | some e =>
      ([], some (OrmCrudSyncService.execute_stmt_translate main_tablename e))
  | none =>
      let r := insert_sub_objects env idx sub_objects
      (.exec_main :: r.1, r.2)

/-- The list branch of `OrmCrudSyncService.multiple_insert_procedure`:
call `insert_procedure` for each dict in order, stopping at the first
raised error. -/
def multiple_insert_go (env : UpsertEnv) (main_tablename : String)
    (sub_object_models : List (String × String)) :
    Nat → List PyDict → List UpsertEv × Option PyError
  | _, [] => ([], none)
  | i, obj :: rest =>
      let r := OrmCrudSyncService.insert_procedure env i main_tablename obj
        sub_object_models
      match r.2 with
      | some e => (r.1, some e)
      | none =>
          let r2 := multiple_insert_go env main_tablename sub_object_models
            (i + 1) rest
          (r.1 ++ r2.1, r2.2)

/-- Embedding of `OrmCrudSyncService.multiple_insert_procedure`: one
`insert_procedure` call for a single dict, a sequential loop of them for a
list of dicts. -/
def OrmCrudSyncService.multiple_insert_procedure (env : UpsertEnv)
    (main_tablename : String) (object_to_insert : MainInput)
    (sub_object_models : List (String × String)) :
    List UpsertEv × Option PyError :=
  match object_to_insert with
  | .one obj =>
      OrmCrudSyncService.insert_procedure env 0 main_tablename obj
        sub_object_models
  | .many objs => multiple_insert_go env main_tablename sub_object_models 0 objs

/-- The `if do_update:` loop of `OrmCrudSyncService.upsert_procedure`: for
each entry of `sub_object_models`, `delete_object` removes the prior
dependent rows for the updated id, and then — as written in the source —
the post-delete hook call is guarded by `if execute_after_insert:`, not by
the presence of the post-delete hook itself: under that guard
`execute_after_delete(...)` is invoked, which is a call of `None` (a
`TypeError`) when no post-delete hook was supplied. -/
def upsert_delete_phase (env : UpsertEnv) (has_after_insert : Bool)
    (has_after_delete : Bool) :
    List (String × String) → List UpsertEv × Option PyError
  | [] => ([], none)
  | (k, _) :: rest =>
      match env.delete_fail k with
      | some e => ([], some e)
      | none =>
          if has_after_insert then
            if has_after_delete then
              match env.after_delete_fail with
              | some e => ([.delete_sub k], some e)
              | none =>
                  let r := upsert_delete_phase env has_after_insert
                    has_after_delete rest
                  (.delete_sub k :: .after_delete_hook :: r.1, r.2)
            else
              ([.delete_sub k],
               some (.typeError "\x27NoneType\x27 object is not callable"))
          else
            let r := upsert_delete_phase env has_after_insert has_after_delete rest
            (.delete_sub k :: r.1, r.2)

/-- The `if do_update:` head of `upsert_procedure`: in update mode it
reads `object_to_insert.get(id_column, "")` (an `AttributeError` when the
input is a list of dicts) and runs the delete phase over
`sub_object_models`; in create mode it does nothing. -/
def OrmCrudSyncService.upsert_delete_part (env : UpsertEnv)
    (object_to_insert : MainInput) (sub_object_models : List (String × String))
    (do_update : Bool) (has_after_insert : Bool) (has_after_delete : Bool) :
    List UpsertEv × Option PyError :=
  if do_update then
    match object_to_insert with
    | .many _ =>
        (([] : List UpsertEv),
         some (PyError.attributeError
           "\x27list\x27 object has no attribute \x27get\x27"))
    | .one _ => upsert_delete_phase env has_after_insert has_after_delete
        sub_object_models
  else ([], none)

/-- The tail of `upsert_procedure` after the update-mode delete phase
`del`: `multiple_insert_procedure`, then the post-insert hook when
supplied, then the single `session.commit()`; any raised error aborts the
run with no commit event. -/
def OrmCrudSyncService.upsert_rest (env : UpsertEnv) (main_tablename : String)
    (object_to_insert : MainInput) (sub_object_models : List (String × String))
    (has_after_insert : Bool) (del : List UpsertEv × Option PyError) :
    List UpsertEv × Option PyError :=
  match del.2 with
  | some e => (del.1, some e)
  | none =>
      let ins := OrmCrudSyncService.multiple_insert_procedure env main_tablename
        object_to_insert sub_object_models
      match ins.2 with
      | some e => (del.1 ++ ins.1, some e)
      | none =>
          if has_after_insert then
            match env.after_insert_fail with
            | some e => (del.1 ++ ins.1, some e)
            | none => (del.1 ++ ins.1 ++ [.after_insert_hook, .commit], none)
          else (del.1 ++ ins.1 ++ [.commit], none)

/-- Embedding of `OrmCrudSyncService.upsert_procedure` as the trace of its
steps: the update-mode delete phase (`upsert_delete_part`), then
`multiple_insert_procedure`, the post-insert hook when supplied, and a
single `session.commit()` (`upsert_rest`). -/
def OrmCrudSyncService.upsert_procedure (env : UpsertEnv)
    (main_tablename : String) (object_to_insert : MainInput)
    (sub_object_models : List (String × String)) (do_update : Bool)
    (has_after_insert : Bool) (has_after_delete : Bool) :
    List UpsertEv × Option PyError :=
  OrmCrudSyncService.upsert_rest env main_tablename object_to_insert
    sub_object_models has_after_insert
    (OrmCrudSyncService.upsert_delete_part env object_to_insert
      sub_object_models do_update has_after_insert has_after_delete)

/-- Decidable equality of `Except` values, used to evaluate the embedded
operations at concrete inputs. -/
instance exceptDecidableEq {ε α : Type} [DecidableEq ε] [DecidableEq α] :
    DecidableEq (Except ε α)
  | .error e1, .error e2 =>
      if h : e1 = e2 then isTrue (by rw [h])
      else isFalse (by intro hc; injection hc; contradiction)
  | .error _, .ok _ => isFalse (by intro hc; exact Except.noConfusion hc)
  | .ok _, .error _ => isFalse (by intro hc; exact Except.noConfusion hc)
  | .ok a1, .ok a2 =>
      if h : a1 = a2 then isTrue (by rw [h])
      else isFalse (by intro hc; injection hc; contradiction)

/-- An upsert environment in which no statement and no hook raises. -/
def upsertEnvOk : UpsertEnv :=
  ⟨fun _ => none, fun _ _ => none, fun _ => none, none, none⟩

/-- Database fixture for the C3 counterexample: one service period, one
real section (onb 1), one axis `X` currently associated to it. -/
def c3db : DB :=
  { service_annuels := ["SA1"]
    sections := [⟨1, "S1", "SA1"⟩]
    axes := [⟨"X", "A1", none, "N", "blue", "SA1", some 1, some 1, none, none⟩]
    axe_sections := [("X", 1)]
    lvpks := [] }

/-- Update request for the C3 counterexample: it supplies section ids
`[1, 2]`, of which only 1 exists. -/
def c3req : AxeEfCreateUpdate :=
  { libelle := "A1", color := "blue", nature := "N", description := none,
    service_annuel_id := "SA1", section_axe_onbs := [1, 2] }

/-- Database fixture for the C3 witness: sections A (onb 1) and B (onb 2)
both exist on the axis's service period and the axis starts associated to
both. -/
def c3wdb : DB :=
  { service_annuels := ["SA1"]
    sections := [⟨1, "A", "SA1"⟩, ⟨2, "B", "SA1"⟩]
    axes := [⟨"X", "A1", none, "N", "blue", "SA1", some 1, some 1, none, none⟩]
    axe_sections := [("X", 1), ("X", 2)]
    lvpks := [] }

/-- Update request for the C3 witness: the section set `{1}`. -/
def c3wreq : AxeEfCreateUpdate :=
  { libelle := "A1", color := "blue", nature := "N", description := none,
    service_annuel_id := "SA1", section_axe_onbs := [1] }

/-- Totality of the label ordering the get-all query sorts by. -/
instance axeRowLibelleLeIsTotal :
    IsTotal AxeRow (fun a b => a.libelle ≤ b.libelle) :=
  ⟨fun a b => le_total a.libelle b.libelle⟩

/-- Transitivity of the label ordering the get-all query sorts by. -/
instance axeRowLibelleLeIsTrans :
    IsTrans AxeRow (fun a b => a.libelle ≤ b.libelle) :=
  ⟨fun _ _ _ h1 h2 => le_trans h1 h2⟩

/-- Fixture for the C9 witness: two axes, of which only axis `A` has a
mapped section with an lvpk row, so the list holds one item while the
count is two. -/
def c9wdb : DB :=
  { service_annuels := ["SA1"]
    sections := [⟨1, "S1", "SA1"⟩]
    axes := [⟨"A", "A1", none, "N", "red", "SA1", some 1, some 1, none, none⟩,
             ⟨"B", "B1", none, "N", "red", "SA1", some 1, some 1, none, none⟩]
    axe_sections := [("A", 1)]
    lvpks := [⟨"L1", "V1", 0, 10, 1⟩] }

/-- C1: for a create (or update) request whose section list is empty, the
operation fails — but with the 404 raised by `verify_existence_and_get` on
the empty id list, not with the 400 validation error; the dedicated
empty-list 400 branch of `_validate_sections` (second conjunct) is
unreachable on this path.  No axis row is persisted either way, since the
error is raised before `create_procedure`. -/
theorem c1_empty_sections_fails_404_not_400 :
  (AxeEfService.create_axe_ef
      { libelle := "A1", color := "red", nature := "N", description := none,
        service_annuel_id := "SA1", section_axe_onbs := [] }
      7 "axe-1" 100
      { service_annuels := ["SA1"], sections := [⟨1, "S1", "SA1"⟩],
        axes := [], axe_sections := [], lvpks := [] } =
    .error (.httpError 404 "section_axe with id [] does not exists"))
  ∧ (AxeEfService._validate_sections [] "SA1" =
    .error (.httpError 400
      ("No TCAP sections axes were specified.\nPlease select at least one valid section on the specified SA SA1"))) := by
  exact ⟨rfl, rfl⟩

/-- C2: the POST and PUT route handlers call the service without the
required `user_id` argument, so for every request body and every database
state the call raises a `TypeError` at binding time — before any
validation, metadata stamping, or persistence. -/
theorem c2_router_omits_user_id :
  (∀ (request : AxeEfCreateUpdate) (new_id : String) (now : Nat) (db : DB),
    axe_ef_router.create_axe_ef request new_id now db =
      .error (.typeError
        "create_axe_ef() missing 1 required positional argument: \x27user_id\x27"))
  ∧ (∀ (axe_ef_id : String) (request : AxeEfCreateUpdate) (now : Nat) (db : DB),
    axe_ef_router.update_axe_ef axe_ef_id request now db =
      .error (.typeError
        "update_axe_ef() missing 1 required positional argument: \x27user_id\x27")) := by
  exact ⟨fun _ _ _ _ => rfl, fun _ _ _ _ => rfl⟩

/-- C10: the renew route handler reads the attribute
`AxeEfService.renew_axe_ef`, which the service class does not define, so
every renew request fails with an `AttributeError` and returns no database
state. -/
theorem c10_renew_route_attribute_error (axe_ef_id service_annuel_id : String)
    (db : DB) :
  axe_ef_router.renew_axe_ef axe_ef_id service_annuel_id db =
    .error (.attributeError
      "type object \x27AxeEfService\x27 has no attribute \x27renew_axe_ef\x27") := rfl

/-- C5, counterexample: the sync and async existence-verification helpers
disagree on the very same failing input — the sync 404 message ends in
"does not exists", the async one in "does not exist". -/
theorem c5_sync_async_message_mismatch :
  verify_existence_and_get "axe_ef" pyReprStrId (.single "x")
      ([] : List AxeRow) AxeRow.id true =
    .error (.httpError 404 "axe_ef with id x does not exists")
  ∧ async_verify_existence_and_get "axe_ef" pyReprStrId (.single "x")
      ([] : List AxeRow) AxeRow.id true false =
    .error (.httpError 404 "axe_ef with id x does not exist")
  ∧ verify_existence_and_get "axe_ef" pyReprStrId (.single "x")
      ([] : List AxeRow) AxeRow.id true ≠
    async_verify_existence_and_get "axe_ef" pyReprStrId (.single "x")
      ([] : List AxeRow) AxeRow.id true false := by
  refine ⟨rfl, rfl, ?_⟩
  decide

/-- C5, amended: with `ignore_not_found` off (the async default, and the
only behaviour the sync variant has), the two helpers agree on every
success, and on failure both raise a 404 over the same message core, the
sync one ending in "does not exists" and the async one in
"does not exist". -/
theorem c5_sync_async_agree_up_to_message {κ ρ : Type} [BEq κ]
    (tableName : String) (reprOf : ObjectId κ → String) (object_id : ObjectId κ)
    (rows : List ρ) (key : ρ → κ) (return_model : Bool) :
  (∃ v, verify_existence_and_get tableName reprOf object_id rows key
      return_model = .ok v
    ∧ async_verify_existence_and_get tableName reprOf object_id rows key
      return_model false = .ok v)
  ∨ (verify_existence_and_get tableName reprOf object_id rows key return_model =
      .error (.httpError 404
        (tableName ++ " with id " ++ reprOf object_id ++ " does not exists"))
    ∧ async_verify_existence_and_get tableName reprOf object_id rows key
        return_model false =
      .error (.httpError 404
        (tableName ++ " with id " ++ reprOf object_id ++ " does not exist"))) := by
  cases object_id with
  | single k =>
      cases h : stmtScalarResult rows key k with
      | none =>
          right
          constructor <;>
            simp [verify_existence_and_get, async_verify_existence_and_get, h]
      | some r =>
          left
          refine ⟨if return_model then .oneR r else .noneR, ?_, ?_⟩ <;>
            simp [verify_existence_and_get, async_verify_existence_and_get, h]
  | multiple ks =>
      by_cases h : (stmtListResult rows key ks).isEmpty
      · right
        constructor <;>
          simp [verify_existence_and_get, async_verify_existence_and_get, h]
      · left
        refine ⟨if return_model then .manyR (stmtListResult rows key ks)
          else .noneR, ?_, ?_⟩ <;>
          simp [verify_existence_and_get, async_verify_existence_and_get, h]

/-- C6, counterexample: a lookup with an empty id list does fail with
not-found, even over a non-empty table — the `IN ()` query returns no row
and the helper treats any empty result as absence. -/
theorem c6_empty_id_list_raises :
  verify_existence_and_get "section_axe" pyReprNatId
      (.multiple ([] : List Nat)) [(⟨1, "S1", "SA1"⟩ : SectionRow)]
      SectionRow.onb_tcap true =
    .error (.httpError 404 "section_axe with id [] does not exists") := rfl

/-- C6, amended: the sync helper raises not-found exactly when the
underlying query returns no matching row — for a scalar id, no matching
row at all; for a list of ids, an empty result set.  Since an empty id
list always yields an empty result, every empty-id-list lookup fails with
the 404 (second conjunct). -/
theorem c6_not_found_iff_query_empty {κ ρ : Type} [BEq κ]
    (tableName : String) (reprOf : ObjectId κ → String) (object_id : ObjectId κ)
    (rows : List ρ) (key : ρ → κ) (return_model : Bool) :
  ((∃ e, verify_existence_and_get tableName reprOf object_id rows key
      return_model = .error e) ↔
    (match object_id with
     | .single k => stmtScalarResult rows key k = Option.none
     | .multiple ks => stmtListResult rows key ks = []))
  ∧ (∀ rows2 : List ρ,
      verify_existence_and_get tableName reprOf (ObjectId.multiple ([] : List κ))
        rows2 key return_model =
      .error (.httpError 404
        (tableName ++ " with id " ++ reprOf (.multiple []) ++
         " does not exists"))) := by
  constructor
  · cases object_id with
    | single k =>
        cases h : stmtScalarResult rows key k with
        | none => simp [verify_existence_and_get, h]
        | some r => simp [verify_existence_and_get, h]
    | multiple ks =>
        by_cases h : (stmtListResult rows key ks).isEmpty
        · simp [verify_existence_and_get, h, List.isEmpty_iff.mp h]
        · simp only [verify_existence_and_get, h, if_neg]
          simp [List.isEmpty_iff] at h
          simp [h]
  · intro rows2
    have hempty : stmtListResult rows2 key ([] : List κ) = [] := by
      simp [stmtListResult]
    simp [verify_existence_and_get, hempty]

/-- A list-lookup with `return_model=True` that succeeds returns exactly
the rows matched by the IN-query. -/
theorem verify_multiple_ok_elim {κ ρ : Type} [BEq κ] {tableName : String}
    {reprOf : ObjectId κ → String} {ks : List κ} {rows : List ρ} {key : ρ → κ}
    {r : VerifyResult ρ}
    (h : verify_existence_and_get tableName reprOf (.multiple ks) rows key true =
      .ok r) :
    r = .manyR (stmtListResult rows key ks) := by
  unfold verify_existence_and_get at h
  by_cases he : (stmtListResult rows key ks).isEmpty
  · simp [he] at h
  · simp [he] at h
    exact h.symm

/-- The dict built by a successful `_make_axe_ef` carries exactly the
section rows resolved by the IN-lookup of the supplied
`section_axe_onbs`. -/
theorem make_axe_ef_sections_elim {axe_ef : AxeEfCreateUpdate} {user_id : Nat}
    {is_new : Bool} {now : Nat} {db : DB} {d : AxeEfDict}
    (h : AxeEfService._make_axe_ef axe_ef user_id is_new now db = .ok d) :
    d.sections =
      stmtListResult db.sections SectionRow.onb_tcap axe_ef.section_axe_onbs := by
  simp only [AxeEfService._make_axe_ef, bind, Except.bind] at h
  cases h1 : verify_existence_and_get "service_annuel" pyReprStrId
      (ObjectId.single axe_ef.service_annuel_id) db.service_annuels
      (fun s => s) false with
  | error e => rw [h1] at h; exact Except.noConfusion h
  | ok v =>
      rw [h1] at h
      dsimp only at h
      cases h2 : verify_existence_and_get "section_axe" pyReprNatId
          (ObjectId.multiple axe_ef.section_axe_onbs) db.sections
          SectionRow.onb_tcap true with
      | error e => rw [h2] at h; exact Except.noConfusion h
      | ok r =>
          rw [h2] at h
          dsimp only at h
          cases h3 : AxeEfService._validate_sections r.asList
              axe_ef.service_annuel_id with
          | error e => rw [h3] at h; exact Except.noConfusion h
          | ok u =>
              rw [h3] at h
              dsimp only at h
              injection h with h
              rw [← h]
              rw [verify_multiple_ok_elim h2]
              rfl

/-- Association rows minted for one axis keep only that axis id, so they
all survive a filter for it. -/
theorem filter_minted_assoc_eq (axe_ef_id : String) (secs : List SectionRow) :
    (secs.map (fun s => (axe_ef_id, s.onb_tcap))).filter
      (fun p => p.1 == axe_ef_id) =
    secs.map (fun s => (axe_ef_id, s.onb_tcap)) := by
  induction secs with
  | nil => rfl
  | cons s t ih => simp [List.filter_cons, ih]

/-- Association rows minted for one axis never survive a filter for a
different first component. -/
theorem filter_minted_assoc_ne (axe_ef_id : String) (secs : List SectionRow) :
    (secs.map (fun s => (axe_ef_id, s.onb_tcap))).filter
      (fun p => p.1 != axe_ef_id) = [] := by
  induction secs with
  | nil => rfl
  | cons s t ih => simp [List.filter_cons, ih]

/-- C3, amended: a successful update stores, for the updated axis, exactly
the associations of the supplied section ids that resolve to existing
sections (first conjunct) — the full prior set having been cleared — and
leaves every other axis's associations untouched (second conjunct); when
every supplied id resolves, the stored id set is exactly the supplied set
(third conjunct). -/
theorem c3_update_replaces_associations (axe_ef_id : String)
    (request : AxeEfCreateUpdate) (user_id now : Nat) (db : DB)
    (res : String × DB)
    (h : AxeEfService.update_axe_ef axe_ef_id request user_id now db = .ok res) :
    res.2.axe_sections.filter (fun p => p.1 == axe_ef_id) =
      (db.sections.filter
        (fun s => request.section_axe_onbs.contains s.onb_tcap)).map
        (fun s => (axe_ef_id, s.onb_tcap))
    ∧ res.2.axe_sections.filter (fun p => p.1 != axe_ef_id) =
      db.axe_sections.filter (fun p => p.1 != axe_ef_id)
    ∧ ((∀ o ∈ request.section_axe_onbs, o ∈ db.sections.map SectionRow.onb_tcap) →
        ∀ o, o ∈ (res.2.axe_sections.filter
            (fun p => p.1 == axe_ef_id)).map Prod.snd ↔
          o ∈ request.section_axe_onbs) := by
  simp only [AxeEfService.update_axe_ef, bind, Except.bind] at h
  cases h1 : verify_existence_and_get "axe_ef" pyReprStrId
      (ObjectId.single axe_ef_id) db.axes AxeRow.id true with
  | error e => rw [h1] at h; exact Except.noConfusion h
  | ok v =>
      rw [h1] at h
      cases h2 : AxeEfService._make_axe_ef request user_id false now db with
      | error e => rw [h2] at h; exact Except.noConfusion h
      | ok d =>
          rw [h2] at h
          injection h with h
          have hsec := make_axe_ef_sections_elim h2
          have hassoc : res.2.axe_sections =
              db.axe_sections.filter (fun p => p.1 != axe_ef_id) ++
                d.sections.map (fun s => (axe_ef_id, s.onb_tcap)) := by
            rw [← h]
            rfl
          have hone : res.2.axe_sections.filter (fun p => p.1 == axe_ef_id) =
              (db.sections.filter
                (fun s => request.section_axe_onbs.contains s.onb_tcap)).map
                (fun s => (axe_ef_id, s.onb_tcap)) := by
            rw [hassoc, List.filter_append, filter_minted_assoc_eq]
            rw [hsec]
            have hnil : (db.axe_sections.filter
                (fun p => p.1 != axe_ef_id)).filter
                (fun p => p.1 == axe_ef_id) = [] := by
              rw [List.filter_filter]
              exact List.filter_eq_nil_iff.mpr (fun a _ => by
                cases hb : a.1 == axe_ef_id <;> simp [hb, bne])
            rw [hnil, List.nil_append]
            rfl
          refine ⟨hone, ?_, ?_⟩
          · rw [hassoc, List.filter_append, filter_minted_assoc_ne,
              List.append_nil, List.filter_filter]
            congr 1
            funext a
            cases hb : a.1 != axe_ef_id <;> simp [hb]
          · intro hall o
            rw [hone]
            rw [List.map_map]
            constructor
            · intro ho
              simp only [List.mem_map, List.mem_filter, Function.comp] at ho
              obtain ⟨s, ⟨hs, hc⟩, heq⟩ := ho
              have hc2 : s.onb_tcap ∈ request.section_axe_onbs := by
                simpa using hc
              simpa [← heq] using hc2
            · intro ho
              have hmem := hall o ho
              simp only [List.mem_map] at hmem
              obtain ⟨s, hs, hso⟩ := hmem
              simp only [List.mem_map, List.mem_filter, Function.comp]
              refine ⟨s, ⟨hs, ?_⟩, by simp [hso]⟩
              simpa [hso] using ho

/-- C3, counterexample: an update supplying section set `{1, 2}` — id 2
resolving to no section — succeeds and stores exactly `{1}`, so the stored
association set is not "exactly the set supplied in the request". -/
theorem c3_stored_set_can_be_proper_subset :
    ∃ db2 : DB, AxeEfService.update_axe_ef "X" c3req 5 200 c3db =
        .ok ("X", db2)
      ∧ db2.axe_sections.map Prod.snd = [1]
      ∧ c3req.section_axe_onbs = [1, 2]
      ∧ ¬ (2 ∈ db2.axe_sections.map Prod.snd) := by
  refine ⟨_, rfl, ?_, rfl, ?_⟩ <;> decide

/-- C3, witness: updating with section set `{1}` after a prior stored set
`{1, 2}` leaves the axis associated to exactly `{1}`. -/
theorem c3_update_replaces_associations_witness :
    ∃ res : String × DB,
      AxeEfService.update_axe_ef "X" c3wreq 5 200 c3wdb = .ok res ∧
      res.2.axe_sections.filter (fun p => p.1 == "X") = [("X", 1)] := by
  refine ⟨_, rfl, ?_⟩
  exact ((c3_update_replaces_associations "X" c3wreq 5 200 c3wdb _ rfl).1).trans
    (by decide)

/-- C4: run of the batch upsert in update mode with a post-delete hook
supplied but no post-insert hook — the run succeeds, deletes the prior
dependent rows, yet never invokes the post-delete hook, because the source
guards that call with `if execute_after_insert:`; symmetrically (last
conjunct), supplying only a post-insert hook makes the update phase call
`None`, a `TypeError`. -/
theorem c4_post_delete_hook_needs_post_insert_hook :
    (OrmCrudSyncService.upsert_procedure upsertEnvOk "periode_exclusion"
        (.one [("id", .scalar "P1"), ("ressources", .rows [[("id", "r1")]])])
        [("ressources", "ressource_espace_temps")] true false true).2 = none
    ∧ (OrmCrudSyncService.upsert_procedure upsertEnvOk "periode_exclusion"
        (.one [("id", .scalar "P1"), ("ressources", .rows [[("id", "r1")]])])
        [("ressources", "ressource_espace_temps")] true false true).1 =
      [.delete_sub "ressources", .exec_main, .exec_sub "ressources", .commit]
    ∧ UpsertEv.after_delete_hook ∉
      (OrmCrudSyncService.upsert_procedure upsertEnvOk "periode_exclusion"
        (.one [("id", .scalar "P1"), ("ressources", .rows [[("id", "r1")]])])
        [("ressources", "ressource_espace_temps")] true false true).1
    ∧ (OrmCrudSyncService.upsert_procedure upsertEnvOk "periode_exclusion"
        (.one [("id", .scalar "P1")]) [("ressources", "ressource_espace_temps")]
        true true false).2 =
      some (.typeError "\x27NoneType\x27 object is not callable") := by
  refine ⟨rfl, rfl, ?_, rfl⟩
  decide

/-- String concatenation is associative (on the underlying character
lists). -/
theorem string_append_assoc (a b c : String) : a ++ b ++ c = a ++ (b ++ c) := by
  obtain ⟨la⟩ := a
  obtain ⟨lb⟩ := b
  obtain ⟨lc⟩ := c
  show String.mk (la ++ lb ++ lc) = String.mk (la ++ (lb ++ lc))
  rw [List.append_assoc]

/-- C7: the integrity-violation translation — the commit-time and
statement-time translators are the same function of the error (first
conjunct); the status is 409 / 400 / 500 by violation kind (second); a
not-null violation carries the raw `str(e)` detail (third); any other
violation wraps `str(e)` (fourth); and a unique violation's 409 message
contains the duplicate label whenever the error parameters carry one
(fifth). -/
theorem c7_integrity_error_translation (tbl : String) (e : IntegrityError) :
    OrmCrudSyncService.commit_translate tbl e =
      OrmCrudSyncService.execute_stmt_translate tbl e
    ∧ (OrmCrudSyncService.execute_stmt_translate tbl e).status =
      (match e.kind with
       | .uniqueViolation => 409
       | .notNullViolation => 400
       | .otherViolation => 500)
    ∧ (e.kind = .notNullViolation →
        OrmCrudSyncService.execute_stmt_translate tbl e = .httpError 400 e.msg)
    ∧ (e.kind = .otherViolation →
        OrmCrudSyncService.execute_stmt_translate tbl e =
          .httpError 500 ("Database integrity error: " ++ e.msg))
    ∧ (∀ v, e.kind = .uniqueViolation → e.params.lookup "libelle" = some v →
        ∃ pre post, OrmCrudSyncService.execute_stmt_translate tbl e =
          .httpError 409 (pre ++ v ++ post)) := by
  obtain ⟨kind, params, msg⟩ := e
  cases kind with
  | uniqueViolation =>
      refine ⟨rfl, rfl, ?_, ?_, ?_⟩
      · intro h; exact absurd h (by simp)
      · intro h; exact absurd h (by simp)
      · intro v hk hv
        refine ⟨"Object " ++ tbl ++ " with label ", " already exists." ++
          "Please try again with another label.", ?_⟩
        simp only [OrmCrudSyncService.execute_stmt_translate, hv, Option.getD_some]
        rw [string_append_assoc]
  | notNullViolation =>
      refine ⟨rfl, rfl, ?_, ?_, ?_⟩
      · intro h; rfl
      · intro h; exact absurd h (by simp)
      · intro v hk hv; exact absurd hk (by simp)
  | otherViolation =>
      refine ⟨rfl, rfl, ?_, ?_, ?_⟩
      · intro h; exact absurd h (by simp)
      · intro h; rfl
      · intro v hk hv; exact absurd hk (by simp)

/-- C7, witness: at a concrete unique violation carrying label `L1`, the
translated 409 message contains `L1`. -/
theorem c7_integrity_error_translation_witness :
    ∃ pre post, OrmCrudSyncService.execute_stmt_translate "axe_ef"
        ⟨.uniqueViolation, [("libelle", "L1")], "dup"⟩ =
      .httpError 409 (pre ++ "L1" ++ post) :=
  (c7_integrity_error_translation "axe_ef"
    ⟨.uniqueViolation, [("libelle", "L1")], "dup"⟩).2.2.2.2 "L1" rfl rfl

/-- The dependent-insert loop never emits a commit event. -/
theorem insert_sub_objects_commit_not_mem (env : UpsertEnv) (idx : Nat)
    (l : List (String × Val)) :
    UpsertEv.commit ∉ (insert_sub_objects env idx l).1 := by
  induction l with
  | nil => simp [insert_sub_objects]
  | cons kv rest ih =>
      obtain ⟨k, v⟩ := kv
      rw [insert_sub_objects]
      split
      · split
        · simp
        · simp [ih]
      · simp [ih]

/-- One `insert_procedure` run never emits a commit event. -/
theorem insert_procedure_commit_not_mem (env : UpsertEnv) (idx : Nat)
    (tn : String) (obj : PyDict) (subs : List (String × String)) :
    UpsertEv.commit ∉ (OrmCrudSyncService.insert_procedure env idx tn obj subs).1 := by
  rw [OrmCrudSyncService.insert_procedure]
  cases h : env.main_fail idx with
  | some e => simp
  | none => simp [insert_sub_objects_commit_not_mem]

/-- The list-input insert loop never emits a commit event. -/
theorem multiple_insert_go_commit_not_mem (env : UpsertEnv) (tn : String)
    (subs : List (String × String)) (i : Nat) (objs : List PyDict) :
    UpsertEv.commit ∉ (multiple_insert_go env tn subs i objs).1 := by
  induction objs generalizing i with
  | nil => simp [multiple_insert_go]
  | cons obj rest ih =>
      rw [multiple_insert_go]
      cases h : (OrmCrudSyncService.insert_procedure env i tn obj subs).2 with
      | some e => simpa using insert_procedure_commit_not_mem env i tn obj subs
      | none =>
          simp only [List.mem_append]
          rintro (hc | hc)
          · exact insert_procedure_commit_not_mem env i tn obj subs hc
          · exact ih (i + 1) hc

/-- `multiple_insert_procedure` never emits a commit event. -/
theorem multiple_insert_commit_not_mem (env : UpsertEnv) (tn : String)
    (inp : MainInput) (subs : List (String × String)) :
    UpsertEv.commit ∉
      (OrmCrudSyncService.multiple_insert_procedure env tn inp subs).1 := by
  cases inp with
  | one obj =>
      exact insert_procedure_commit_not_mem env 0 tn obj subs
  | many objs =>
      exact multiple_insert_go_commit_not_mem env tn subs 0 objs

/-- The update-mode delete loop never emits a commit event. -/
theorem upsert_delete_phase_commit_not_mem (env : UpsertEnv)
    (hai had : Bool) (l : List (String × String)) :
    UpsertEv.commit ∉ (upsert_delete_phase env hai had l).1 := by
  induction l with
  | nil => simp [upsert_delete_phase]
  | cons km rest ih =>
      obtain ⟨k, m⟩ := km
      rw [upsert_delete_phase]
      cases hd : env.delete_fail k with
      | some e => simp
      | none =>
          dsimp only
          split
          · split
            · split
              · simp
              · simp [ih]
            · simp
          · simp [ih]

/-- The whole delete part never emits a commit event. -/
theorem upsert_delete_part_commit_not_mem (env : UpsertEnv) (inp : MainInput)
    (subs : List (String × String)) (du hai had : Bool) :
    UpsertEv.commit ∉
      (OrmCrudSyncService.upsert_delete_part env inp subs du hai had).1 := by
  unfold OrmCrudSyncService.upsert_delete_part
  split
  · split
    · simp
    · exact upsert_delete_phase_commit_not_mem env hai had subs
  · simp

/-- C8: every batch-upsert run commits exactly once when it succeeds and
never when any step raises, and on success the commit is the trace's final
event — after the primary insert, the dependent inserts, and any
post-insert hook. -/
theorem c8_upsert_commits_once_at_end (env : UpsertEnv) (tn : String)
    (inp : MainInput) (subs : List (String × String)) (du hai had : Bool) :
    ((OrmCrudSyncService.upsert_procedure env tn inp subs du hai had).1.count
        UpsertEv.commit =
      if (OrmCrudSyncService.upsert_procedure env tn inp subs du hai had).2.isSome
        then 0 else 1)
    ∧ ((OrmCrudSyncService.upsert_procedure env tn inp subs du hai had).2.isSome
      ∨ (OrmCrudSyncService.upsert_procedure env tn inp subs du hai had).1.getLast?
        = some UpsertEv.commit) := by
  have hdel := upsert_delete_part_commit_not_mem env inp subs du hai had
  have hins := multiple_insert_commit_not_mem env tn inp subs
  rcases hD : OrmCrudSyncService.upsert_delete_part env inp subs du hai had with
    ⟨dtr, derr⟩
  rcases hI : OrmCrudSyncService.multiple_insert_procedure env tn inp subs with
    ⟨itr, ierr⟩
  rw [hD] at hdel
  rw [hI] at hins
  unfold OrmCrudSyncService.upsert_procedure OrmCrudSyncService.upsert_rest
  rw [hD, hI]
  dsimp only
  cases derr with
  | some e =>
      exact ⟨by simp [List.count_eq_zero.mpr hdel], Or.inl rfl⟩
  | none =>
      dsimp only
      cases ierr with
      | some e =>
          refine ⟨?_, Or.inl rfl⟩
          simp [List.count_append, List.count_eq_zero.mpr hdel,
            List.count_eq_zero.mpr hins]
      | none =>
          dsimp only
          by_cases hb : hai = true
          · rw [if_pos hb]
            cases ha : env.after_insert_fail with
            | some e =>
                refine ⟨?_, Or.inl rfl⟩
                simp [List.count_append, List.count_eq_zero.mpr hdel,
                  List.count_eq_zero.mpr hins]
            | none =>
                refine ⟨?_, Or.inr ?_⟩
                · simp [List.count_append, List.count_eq_zero.mpr hdel,
                    List.count_eq_zero.mpr hins]
                · rw [List.getLast?_append_cons]
                  rfl
          · rw [if_neg hb]
            refine ⟨?_, Or.inr ?_⟩
            · simp [List.count_append, List.count_eq_zero.mpr hdel,
                List.count_eq_zero.mpr hins]
            · rw [List.getLast?_append_cons]
              rfl

/-- C9: the get-all operation's count is the separate unfiltered count of
all axis rows, whatever the list query returns (first conjunct); the list
is ordered by label (second), holds exactly the aggregated rows of the
axes having at least one joined section/lvpk row (third and fourth), and
has one row per axis (fifth: distinct axis ids give distinct list
entries). -/
theorem c9_get_all_count_independent_of_items (db : DB) :
    (AxeEfService.get_all_axes_ef db).2 = db.axes.length
    ∧ List.Pairwise (fun x y => x.libelle ≤ y.libelle)
        (AxeEfService.get_all_axes_ef db).1
    ∧ (∀ it ∈ (AxeEfService.get_all_axes_ef db).1,
        ∃ a, a ∈ db.axes ∧ it = axeGetAllItem db a ∧ axe_join_rows db a ≠ [])
    ∧ (∀ a ∈ db.axes, axe_join_rows db a ≠ [] →
        axeGetAllItem db a ∈ (AxeEfService.get_all_axes_ef db).1)
    ∧ ((db.axes.map AxeRow.id).Nodup →
        ((AxeEfService.get_all_axes_ef db).1.map AxeEfGetAllItem.id).Nodup) := by
  refine ⟨rfl, ?_, ?_, ?_, ?_⟩ <;>
    simp only [AxeEfService.get_all_axes_ef]
  · rw [List.pairwise_map]
    exact List.sorted_insertionSort (fun a b : AxeRow => a.libelle ≤ b.libelle)
      (db.axes.filter (fun a => !(axe_join_rows db a).isEmpty))
  · intro it hit
    rw [List.mem_map] at hit
    obtain ⟨a, ha, rfl⟩ := hit
    rw [List.mem_insertionSort, List.mem_filter] at ha
    refine ⟨a, ha.1, rfl, ?_⟩
    simpa [List.isEmpty_iff] using ha.2
  · intro a ha hne
    rw [List.mem_map]
    refine ⟨a, ?_, rfl⟩
    rw [List.mem_insertionSort, List.mem_filter]
    exact ⟨ha, by simpa [List.isEmpty_iff] using hne⟩
  · intro hnd
    rw [List.map_map]
    have hcomp : (AxeEfGetAllItem.id ∘ axeGetAllItem db) = AxeRow.id := rfl
    rw [hcomp]
    have hperm :=
      (List.perm_insertionSort (fun a b : AxeRow => a.libelle ≤ b.libelle)
        (db.axes.filter (fun a => !(axe_join_rows db a).isEmpty))).map AxeRow.id
    rw [hperm.nodup_iff]
    exact ((List.filter_sublist db.axes).map AxeRow.id).nodup hnd

/-- C9, witness: on the fixture the count is 2 (all axes) although the
list holds a single item, and the item ids are pairwise distinct. -/
theorem c9_get_all_count_independent_of_items_witness :
    (AxeEfService.get_all_axes_ef c9wdb).2 = 2
    ∧ (AxeEfService.get_all_axes_ef c9wdb).1.length = 1
    ∧ ((AxeEfService.get_all_axes_ef c9wdb).1.map AxeEfGetAllItem.id).Nodup := by
  have h := c9_get_all_count_independent_of_items c9wdb
  exact ⟨h.1.trans (by decide), by decide, h.2.2.2.2 (by decide)⟩
